import Mathlib

/-!
Verification of the build-orchestration pipeline of `ffmpeg-dev-rs`
(`build.rs`): a shallow embedding of the build script's control flow over an
explicit world model (environment snapshot, filesystem existence set, and
oracles for the external processes it invokes), together with theorems about
the skip/rebuild decisions, the configure retry, link-directive emission,
binding generation, and the environment-variable overrides.

External effects are modelled at the process boundary: each external command
(`cp`, `./configure`, `make`, bindgen, the C shim compile) is an oracle in the
world; the filesystem is the set of paths that exist. A successful `make` is
assumed to produce the expected static-library artifacts, and a successful
recursive copy to produce the staged root — these are the two facts about the
external tools the script's own caching logic relies on.
-/

namespace FfmpegDev

/-! ## Environment utilities (`build.rs` lines 18–39) -/

/-- An environment snapshot: an association list of variable bindings, looked
up by exact name, mirroring `std::env::var` on a fixed environment. -/
def EnvMap := List (String × String)

/-- Lookup of a variable, `std::env::var` / `env::var_os`: `some` value when
the variable is bound, `none` otherwise. -/
def envVar (env : EnvMap) (s : String) : Option String :=
  (List.find? (fun p => p.1 == s) env).map (fun p => p.2)

/-- Embedding of Rust `str::to_lowercase` as character-wise ASCII lowercasing
(every value the build script compares is ASCII). -/
def rust_to_lowercase (s : String) : String :=
  String.mk (s.data.map Char.toLower)

/-- Embedding of `has_env_var_with_value`: the variable is present and its
lowercased value equals the lowercased expected value; absence yields `false`
(`unwrap_or(false)`), never an error. -/
def has_env_var_with_value (env : EnvMap) (s v : String) : Bool :=
  (((envVar env s).map (fun x => rust_to_lowercase x)).map
    (fun x => x == rust_to_lowercase v)).getD false

/-- Embedding of `is_release_mode`. -/
def is_release_mode (env : EnvMap) : Bool :=
  has_env_var_with_value env "PROFILE" "release"

/-- Embedding of `is_debug_mode`. -/
def is_debug_mode (env : EnvMap) : Bool :=
  has_env_var_with_value env "PROFILE" "debug"

/-- Embedding of `opt_level_eq`. -/
def opt_level_eq (env : EnvMap) (x : Nat) : Bool :=
  has_env_var_with_value env "OPT_LEVEL" (toString x)

/-! ## Static path data (`build.rs` lines 45–86) -/

/-- Embedding of the `STATIC_LIBS` constant: logical library name paired with
its expected relative artifact path. -/
def STATIC_LIBS : List (String × String) :=
  [ ("avcodec", "libavcodec/libavcodec.a"),
    ("avdevice", "libavdevice/libavdevice.a"),
    ("avfilter", "libavfilter/libavfilter.a"),
    ("avformat", "libavformat/libavformat.a"),
    ("avutil", "libavutil/libavutil.a"),
    ("swresample", "libswresample/libswresample.a"),
    ("swscale", "libswscale/libswscale.a") ]

/-- Embedding of the `SEARCH_PATHS` constant. -/
def SEARCH_PATHS : List String :=
  [ "libavcodec", "libavdevice", "libavfilter", "libavformat", "libavresample",
    "libavutil", "libpostproc", "libswresample", "libswscale" ]

/-! ## String helpers modelling Rust `str` operations -/

/-- Helper for `str::contains`: is `pat` a contiguous infix of the character
list? -/
def infix_of (pat : List Char) : List Char → Bool
  | [] => pat.isEmpty
  | c :: rest => pat.isPrefixOf (c :: rest) || infix_of pat rest

/-- Embedding of Rust `str::contains(pat)` (substring containment). -/
def contains_substr (s pat : String) : Bool :=
  infix_of pat.toList s.toList

/-- Splitting a character list at every occurrence of a separator character;
always returns at least one (possibly empty) segment. -/
def split_on_char (c : Char) : List Char → List (List Char)
  | [] => [[]]
  | x :: xs =>
    match split_on_char c xs with
    | [] => if x = c then [[], []] else [[x]]
    | y :: ys => if x = c then [] :: y :: ys else (x :: y) :: ys

/-- Drop one trailing carriage return, for `"\r\n"` line endings. -/
def strip_cr (l : List Char) : List Char :=
  if l.getLast? = some '\r' then l.dropLast else l

/-- Segments of `str::lines()`: every segment but the last was terminated by
`"\n"` and loses one trailing `"\r"`; a trailing empty segment (optional final
line ending) is dropped. -/
def rust_lines_aux : List (List Char) → List (List Char)
  | [] => []
  | [last] => if last.isEmpty then [] else [last]
  | l :: rest => strip_cr l :: rust_lines_aux rest

/-- Embedding of Rust `str::lines()`. -/
def rust_lines (s : String) : List String :=
  (rust_lines_aux (split_on_char (Char.ofNat 10) s.data)).map (fun l => String.mk l)

/-- Embedding of Rust `str::trim` (whitespace stripped from both ends). -/
def rust_trim (s : String) : String :=
  String.mk (((s.data.dropWhile Char.isWhitespace).reverse.dropWhile
    Char.isWhitespace).reverse)

/-! ## Process results -/

/-- Result of one external invocation via `.output()`: exit success plus the
captured output streams (`std::process::Output`). -/
structure ProcessResult where
  success : Bool
  stdout : String
  stderr : String
deriving DecidableEq, Repr

/-! ## Configure step (`build.rs` lines 152–224) -/

/-- The failure text the configure retry is keyed on. -/
def NASM_SIGNATURE : String := "nasm/yasm not found or too old"

/-- Embedding of the classifier at `build.rs` lines 208–211: some line of the
captured stderr, or of the captured stdout, contains the missing-assembler
signature (a case-sensitive substring test on each line). -/
def nasm_yasm_issue (stderr stdout : String) : Bool :=
  (rust_lines stderr ++ rust_lines stdout).any (fun x => contains_substr x NASM_SIGNATURE)

/-- Composition of the configure flag vector (`build.rs` lines 153–188), in
the order the code pushes them: baseline, GPL feature, x264 feature, and the
three debug-oriented flags when the profile is debug with optimization level
exactly 0. -/
def configure_flags (env : EnvMap) : List String :=
  ["--disable-programs", "--disable-doc", "--disable-autodetect"]
    ++ (if (envVar env "CARGO_FEATURE_GPL").isSome then ["--enable-gpl"] else [])
    ++ (if (envVar env "CARGO_FEATURE_X264").isSome then ["--enable-libx264"] else [])
    ++ (if is_debug_mode env && opt_level_eq env 0 then
          ["--disable-optimizations", "--enable-debug", "--disable-stripping"]
        else [])

/-- Embedding of the configure invocation with its single signature-matched
retry (`build.rs` lines 204–224). The oracle maps a flag vector to the
`ProcessResult` of running `./configure` with those flags. Returns the list of
flag vectors actually invoked, in order, and either success or the panic
payload `stderr ++ "\n" ++ stdout` of the fatally failing attempt. -/
def configure_step (oracle : List String → ProcessResult) (flags : List String) :
    List (List String) × Except String Unit :=
  let r1 := oracle flags
  if r1.success then ([flags], Except.ok ())
  else if nasm_yasm_issue r1.stderr r1.stdout then
    let flags2 := flags ++ ["--disable-x86asm"]
    let r2 := oracle flags2
    if r2.success then ([flags, flags2], Except.ok ())
    else ([flags, flags2], Except.error (r2.stderr ++ "\n" ++ r2.stdout))
  else ([flags], Except.error (r1.stderr ++ "\n" ++ r1.stdout))

/-! ## World model and pipeline trace -/

/-- The world one pipeline run executes against: the environment snapshot
(read through `envVar`), the set of filesystem paths that exist, and oracles
for each external tool the script invokes. `make_result.success` is assumed to
entail that the expected artifacts exist afterwards, and a successful `cp -r`
that the staged root exists — the facts the script's caching relies on. -/
structure World where
  env : EnvMap
  fs : List String
  cp_success : Bool
  configure : List String → ProcessResult
  make_result : ProcessResult
  headers_file : Option String
  bindings_file : Option String
  bindgen_result : Option String
  cc_success : Bool

/-- Observable record of one successful pipeline run: which phases executed,
every `println!` directive line in emission order, the content of the bindings
artifact after the run, and the filesystem afterwards. -/
structure Trace where
  copied : Bool
  configure_runs : List (List String)
  make_ran : Bool
  directives : List String
  codegen_ran : Bool
  bindings : Option String
  shim_ran : Bool
  fs_after : List String
deriving DecidableEq, Repr

/-- The fatal aborts (`panic!` / `expect` / `assert!`) of the pipeline, each
carrying the diagnostic payload the code attaches. -/
inductive BuildError where
  | noOutDir
  | cpFailed
  | missingDepX264Libs
  | missingDepX264Pkgconfig
  | configureFailed (output : String)
  | makeFailed (output : String)
  | headersUnreadable
  | blankHeaderLine
  | missingHeaders (paths : List String)
  | bindgenFailed
  | ccFailed
deriving DecidableEq, Repr

/-! ## Pipeline phases (`build.rs` `fn build`, lines 121–331) -/

/-- Skip-build decision (`build.rs` lines 126–135): all expected artifacts
exist under the staged root and the profile is not release; the `FFDEV1`
override forces a rebuild. -/
def already_built (fs : List String) (source_path : String) : Bool :=
  STATIC_LIBS.all (fun lib => fs.contains (source_path ++ "/" ++ lib.2))

/-- Final value of the mutable `skip_build` variable after the `FFDEV1`
override (`build.rs` lines 132–135). -/
def skip_build_flag (env : EnvMap) (fs : List String) (source_path : String) : Bool :=
  let skip := already_built fs source_path && !is_release_mode env
  if has_env_var_with_value env "FFDEV1" "1" then false else skip

/-- Staging step (`build.rs` lines 137–148): copy the pristine tree into the
staged root when the root is absent or the build is not skipped; assert the
copy succeeded and the root exists. Returns whether a copy happened and the
filesystem afterwards. -/
def stage_step (skip_build : Bool) (cp_success : Bool) (fs : List String)
    (source_path : String) : Except BuildError (Bool × List String) :=
  if !fs.contains source_path || !skip_build then
    if cp_success then Except.ok (true, source_path :: fs) else Except.error BuildError.cpFailed
  else Except.ok (false, fs)

/-- The two link directives registered for the external x264 codec while the
configure flags are composed (`build.rs` lines 165–181); requires the two
`DEP_X264` variables when the feature is enabled (`unwrap`). -/
def x264_directives (env : EnvMap) : Except BuildError (List String) :=
  if (envVar env "CARGO_FEATURE_X264").isSome then
    match envVar env "DEP_X264_LIBS" with
    | none => Except.error BuildError.missingDepX264Libs
    | some libs =>
      match envVar env "DEP_X264_PKGCONFIG" with
      | none => Except.error BuildError.missingDepX264Pkgconfig
      | some _ =>
        Except.ok ["cargo:rustc-link-search=native=" ++ libs, "cargo:rustc-link-lib=static=x264"]
  else Except.ok []

/-- Panic payload of a failed `make` (`build.rs` lines 237–246). -/
def make_error_output (r : ProcessResult) : String :=
  ("* stderr:\n" ++ r.stderr) ++ "\n\n" ++ ("* stdout:\n" ++ r.stdout)

/-- Expected artifact paths under the staged root, in declaration order. -/
def artifact_paths (source_path : String) : List String :=
  STATIC_LIBS.map (fun lib => source_path ++ "/" ++ lib.2)

/-- Build code phase (`build.rs` lines 150–249): when the build is not
skipped, compose flags, run configure with its retry, then run `make`. A
successful `make` materializes the expected artifacts. Returns the x264
directives printed, the configure invocations, whether `make` ran, and the
filesystem afterwards. -/
def build_code_phase (w : World) (skip_build : Bool) (source_path : String)
    (fs1 : List String) :
    Except BuildError (List String × List (List String) × Bool × List String) :=
  if skip_build = false then
    match x264_directives w.env with
    | Except.error e => Except.error e
    | Except.ok xdirs =>
      let flags := configure_flags w.env
      let cres := configure_step w.configure flags
      match cres.2 with
      | Except.error out => Except.error (BuildError.configureFailed out)
      | Except.ok _ =>
        if w.make_result.success then
          Except.ok (xdirs, cres.1, true, artifact_paths source_path ++ fs1)
        else Except.error (BuildError.makeFailed (make_error_output w.make_result))
  else Except.ok ([], [], false, fs1)

/-- Link directives of the LINK section (`build.rs` lines 251–259), in
emission order: the staged root as a link-search path, each `SEARCH_PATHS`
entry joined to the staged root, then each `STATIC_LIBS` name as a
link-library instruction. -/
def link_directives (source_path : String) : List String :=
  ("cargo:rustc-link-search=native=" ++ source_path)
    :: SEARCH_PATHS.map (fun p => "cargo:rustc-link-search=native=" ++ (source_path ++ "/" ++ p))
    ++ STATIC_LIBS.map (fun lib => "cargo:rustc-link-lib=static=" ++ lib.1)

/-- Skip-codegen decision (`build.rs` lines 285–288): the bindings artifact
already exists, unless the `FFDEV2` override forces regeneration. -/
def skip_codegen_flag (env : EnvMap) (fs : List String) (gen_path : String) : Bool :=
  if has_env_var_with_value env "FFDEV2" "2" then false else fs.contains gen_path

/-- Missing-header collection (`build.rs` lines 293–306): fold over the
declared headers, resolving each against the staged root and collecting, in
order, those that do not exist. -/
def collect_missing (fs : List String) (source_path : String) (headers : List String) :
    List String :=
  headers.foldl
    (fun missing path =>
      let path := source_path ++ "/" ++ path
      if !fs.contains path then missing ++ [path] else missing)
    []

/-- Codegen phase (`build.rs` lines 261–321), after the rerun line is printed:
read and validate the header list, decide the cache skip, and when not
skipped, collect missing headers (aborting if any) and run generation, writing
the artifact. Returns whether generation ran, the bindings artifact content
afterwards, and the filesystem afterwards. -/
def codegen_step (env : EnvMap) (fs : List String) (out_path source_path : String)
    (headers_file bindings_file bindgen_result : Option String) :
    Except BuildError (Bool × Option String × List String) :=
  match headers_file with
  | none => Except.error BuildError.headersUnreadable
  | some content =>
    let ffmpeg_headers := rust_lines content
    if !(ffmpeg_headers.all (fun x => !((rust_trim x).data.isEmpty))) then
      Except.error BuildError.blankHeaderLine
    else
      let gen_path := out_path ++ "/" ++ "bindings_ffmpeg.rs"
      if !(skip_codegen_flag env fs gen_path) then
        let missing := collect_missing fs source_path ffmpeg_headers
        if !missing.isEmpty then Except.error (BuildError.missingHeaders missing)
        else
          match bindgen_result with
          | none => Except.error BuildError.bindgenFailed
          | some generated => Except.ok (true, some generated, gen_path :: fs)
      else Except.ok (false, bindings_file, fs)

/-- Embedding of `fn build` (`build.rs` lines 121–331): the whole pipeline.
An `Except.error` is a `panic!`-style fatal abort of the process. -/
def build (w : World) : Except BuildError Trace :=
  match envVar w.env "OUT_DIR" with
  | none => Except.error BuildError.noOutDir
  | some out_path =>
    let source_path := out_path ++ "/ffmpeg-src"
    let skip_build := skip_build_flag w.env w.fs source_path
    match stage_step skip_build w.cp_success w.fs source_path with
    | Except.error e => Except.error e
    | Except.ok staged =>
      match build_code_phase w skip_build source_path staged.2 with
      | Except.error e => Except.error e
      | Except.ok phase =>
        let dirs := phase.1 ++ link_directives source_path ++ ["rerun-if-changed=headers"]
        match codegen_step w.env phase.2.2.2 out_path source_path
            w.headers_file w.bindings_file w.bindgen_result with
        | Except.error e => Except.error e
        | Except.ok cg =>
          if w.cc_success then
            Except.ok
              { copied := staged.1
                configure_runs := phase.2.1
                make_ran := phase.2.2.1
                directives := dirs
                codegen_ran := cg.1
                bindings := cg.2.1
                shim_ran := true
                fs_after := cg.2.2 }
          else Except.error BuildError.ccFailed

/-! ## Basic lemmas about the environment probe and the skip decisions -/

theorem release_not_debug (env : EnvMap) (h : is_release_mode env = true) :
    is_debug_mode env = false := by
  unfold is_release_mode is_debug_mode has_env_var_with_value at *
  cases henv : envVar env "PROFILE" with
  | none => simp_all
  | some x =>
    rw [henv] at h
    have h' : rust_to_lowercase x = rust_to_lowercase "release" := by simpa using h
    have h2 : (rust_to_lowercase x == rust_to_lowercase "debug") = false := by
      rw [h']; decide
    simpa using h2

theorem debug_not_release (env : EnvMap) (h : is_debug_mode env = true) :
    is_release_mode env = false := by
  unfold is_release_mode is_debug_mode has_env_var_with_value at *
  cases henv : envVar env "PROFILE" with
  | none => simp_all
  | some x =>
    rw [henv] at h
    have h' : rust_to_lowercase x = rust_to_lowercase "debug" := by simpa using h
    have h2 : (rust_to_lowercase x == rust_to_lowercase "release") = false := by
      rw [h']; decide
    simpa using h2

theorem skip_build_flag_eq (env : EnvMap) (fs : List String) (sp : String) :
    skip_build_flag env fs sp =
      (already_built fs sp && !is_release_mode env &&
        !has_env_var_with_value env "FFDEV1" "1") := by
  unfold skip_build_flag
  cases h : has_env_var_with_value env "FFDEV1" "1" <;> simp [h]

/-- C7: the composed configure flag set contains the three debug-oriented
flags exactly when the profile is debug and the optimization level is exactly
0; a release profile yields none of them; the baseline program-, doc- and
autodetect-disabling flags are always present. -/
theorem configure_flags_debug_profile (env : EnvMap) :
    (("--disable-optimizations" ∈ configure_flags env ∧
      "--enable-debug" ∈ configure_flags env ∧
      "--disable-stripping" ∈ configure_flags env) ↔
      (is_debug_mode env = true ∧ opt_level_eq env 0 = true)) ∧
    (is_release_mode env = true →
      "--disable-optimizations" ∉ configure_flags env ∧
      "--enable-debug" ∉ configure_flags env ∧
      "--disable-stripping" ∉ configure_flags env) ∧
    ("--disable-programs" ∈ configure_flags env ∧
      "--disable-doc" ∈ configure_flags env ∧
      "--disable-autodetect" ∈ configure_flags env) := by
  cases hg : (envVar env "CARGO_FEATURE_GPL").isSome <;>
    cases hx : (envVar env "CARGO_FEATURE_X264").isSome <;>
      cases hd : is_debug_mode env <;>
        cases ho : opt_level_eq env 0 <;>
          simp_all [configure_flags] <;>
            exact debug_not_release env hd

/-- C7 witness at a concrete debug environment. -/
theorem configure_flags_debug_profile_witness :
    ("--disable-optimizations" ∈ configure_flags [("PROFILE", "debug"), ("OPT_LEVEL", "0")] ∧
      "--enable-debug" ∈ configure_flags [("PROFILE", "debug"), ("OPT_LEVEL", "0")] ∧
      "--disable-stripping" ∈ configure_flags [("PROFILE", "debug"), ("OPT_LEVEL", "0")]) :=
  (configure_flags_debug_profile [("PROFILE", "debug"), ("OPT_LEVEL", "0")]).1.mpr
    (by constructor <;> decide)

/-- C9: the force-rebuild override fires exactly when `FFDEV1` equals `"1"`
after lowercasing both sides, forcing `skip_build` to `false`; the
force-regenerate override fires exactly when `FFDEV2` equals `"2"`; an unbound
variable yields `false` and never an error, and any present value acts via its
lowercased comparison, so other values leave both decisions unchanged. -/
theorem ffdev_override_semantics :
    (∀ env fs sp, has_env_var_with_value env "FFDEV1" "1" = false →
      skip_build_flag env fs sp = (already_built fs sp && !is_release_mode env)) ∧
    (∀ env fs sp, has_env_var_with_value env "FFDEV1" "1" = true →
      skip_build_flag env fs sp = false) ∧
    (∀ env fs gp, has_env_var_with_value env "FFDEV2" "2" = false →
      skip_codegen_flag env fs gp = fs.contains gp) ∧
    (∀ env fs gp, has_env_var_with_value env "FFDEV2" "2" = true →
      skip_codegen_flag env fs gp = false) ∧
    (∀ env s v, envVar env s = none → has_env_var_with_value env s v = false) ∧
    (∀ env s v x, envVar env s = some x →
      has_env_var_with_value env s v = (rust_to_lowercase x == rust_to_lowercase v)) := by
  refine ⟨?_, ?_, ?_, ?_, ?_, ?_⟩
  · intro env fs sp h; unfold skip_build_flag; simp [h]
  · intro env fs sp h; unfold skip_build_flag; simp [h]
  · intro env fs gp h; unfold skip_codegen_flag; simp [h]
  · intro env fs gp h; unfold skip_codegen_flag; simp [h]
  · intro env s v h; unfold has_env_var_with_value; simp [h]
  · intro env s v x h; unfold has_env_var_with_value; simp [h]

/-- C9 witness: the overrides and the absence/other-value cases at concrete
environments. -/
theorem ffdev_override_semantics_witness :
    skip_build_flag [("FFDEV1", "1")] ["r"] "r" = false ∧
    skip_codegen_flag [("FFDEV2", "2")] ["g"] "g" = false ∧
    skip_codegen_flag [] ["g"] "g" = List.contains ["g"] "g" ∧
    has_env_var_with_value [("FFDEV1", "true")] "FFDEV1" "1" = false := by
  refine ⟨?_, ?_, ?_, ?_⟩
  · exact ffdev_override_semantics.2.1 [("FFDEV1", "1")] ["r"] "r" (by decide)
  · exact ffdev_override_semantics.2.2.2.1 [("FFDEV2", "2")] ["g"] "g" (by decide)
  · exact ffdev_override_semantics.2.2.1 [] ["g"] "g" (by decide)
  · exact (ffdev_override_semantics.2.2.2.2.2 [("FFDEV1", "true")] "FFDEV1" "1" "true" rfl).trans
      (by decide)

/-! ## Configure retry behaviour -/

/-- Modelled from the spec: the retry condition as § 4.4 words it — "the
lowercase concatenation of captured standard-output and standard-error"
contains the missing-assembler substring. Stated for comparison with the
code's classifier `nasm_yasm_issue`, which tests each captured line
case-sensitively instead. -/
def spec_retry_condition (r : ProcessResult) : Bool :=
  contains_substr (rust_to_lowercase (r.stdout ++ r.stderr)) NASM_SIGNATURE

/-- An oracle whose single configure attempt fails printing the
missing-assembler text in upper case. -/
def upper_nasm_oracle : List String → ProcessResult :=
  fun _ => ⟨false, "", "NASM/YASM NOT FOUND OR TOO OLD"⟩

/-- C2 counterexample: a failed first configure invocation whose lowercase
concatenated output contains the missing-assembler substring, yet the code
performs no retry (its classifier is case-sensitive), refuting the claimed
equivalence at this input. -/
theorem retry_lowercase_concat_refuted :
    (upper_nasm_oracle (configure_flags [])).success = false ∧
    spec_retry_condition (upper_nasm_oracle (configure_flags [])) = true ∧
    (configure_step upper_nasm_oracle (configure_flags [])).1.length = 1 ∧
    ¬(((configure_step upper_nasm_oracle (configure_flags [])).1.length = 2) ↔
        spec_retry_condition (upper_nasm_oracle (configure_flags [])) = true) := by
  refine ⟨rfl, by decide, by decide, ?_⟩
  intro hiff
  have h2 := hiff.mpr (by decide)
  have h1 : (configure_step upper_nasm_oracle (configure_flags [])).1.length = 1 := by decide
  rw [h1] at h2
  cases h2

/-- C2 amended: for a failed first configure invocation, the retry fires
exactly when some line of the captured standard-error or standard-output
contains, case-sensitively, the substring `"nasm/yasm not found or too old"`;
when it fires, exactly one retry runs, with the assembly-disabling flag
appended to the otherwise-unchanged flag vector. -/
theorem configure_retry_iff (oracle : List String → ProcessResult) (flags : List String)
    (h : (oracle flags).success = false) :
    ((configure_step oracle flags).1 = [flags, flags ++ ["--disable-x86asm"]] ↔
      nasm_yasm_issue (oracle flags).stderr (oracle flags).stdout = true) ∧
    ((configure_step oracle flags).1 = [flags] ↔
      nasm_yasm_issue (oracle flags).stderr (oracle flags).stdout = false) := by
  unfold configure_step
  cases hn : nasm_yasm_issue (oracle flags).stderr (oracle flags).stdout <;>
    cases h2 : (oracle (flags ++ ["--disable-x86asm"])).success <;>
      simp [h, hn, h2]

/-- C2 witness: a failed attempt carrying the exact signature retries once
with the appended flag; the same oracle also discharges the no-signature
direction via the contrapositive list shape. -/
theorem configure_retry_iff_witness :
    (configure_step (fun _ => ⟨false, "", "nasm/yasm not found or too old"⟩) ["-c"]).1 =
      [["-c"], ["-c", "--disable-x86asm"]] :=
  ((configure_retry_iff (fun _ => ⟨false, "", "nasm/yasm not found or too old"⟩) ["-c"]
    rfl).1).mpr (by decide)

/-- C3: a failed configure whose captured output lacks the missing-assembler
signature aborts after one attempt (zero retries) with the full captured
output attached; after a fired retry, the step succeeds exactly when the
retry's exit status is success, and a second failure aborts attaching the
retry's full captured output. -/
theorem configure_failure_aborts (oracle : List String → ProcessResult) (flags : List String)
    (h : (oracle flags).success = false) :
    (nasm_yasm_issue (oracle flags).stderr (oracle flags).stdout = false →
      configure_step oracle flags =
        ([flags], Except.error ((oracle flags).stderr ++ "\n" ++ (oracle flags).stdout))) ∧
    (nasm_yasm_issue (oracle flags).stderr (oracle flags).stdout = true →
      ((configure_step oracle flags).2 = Except.ok () ↔
        (oracle (flags ++ ["--disable-x86asm"])).success = true) ∧
      ((oracle (flags ++ ["--disable-x86asm"])).success = false →
        (configure_step oracle flags).2 =
          Except.error ((oracle (flags ++ ["--disable-x86asm"])).stderr ++ "\n" ++
            (oracle (flags ++ ["--disable-x86asm"])).stdout))) := by
  unfold configure_step
  cases hn : nasm_yasm_issue (oracle flags).stderr (oracle flags).stdout <;>
    cases h2 : (oracle (flags ++ ["--disable-x86asm"])).success <;>
      simp [h, hn, h2]

/-- C3 witness: a failing configure without the signature aborts at once with
its joined output. -/
theorem configure_failure_aborts_witness :
    configure_step (fun _ => ⟨false, "out", "err"⟩) ["-c"] =
      ([["-c"]], Except.error ("err" ++ "\n" ++ "out")) :=
  (configure_failure_aborts (fun _ => ⟨false, "out", "err"⟩) ["-c"] rfl).1 (by decide)

/-! ## Binding-generation validation -/

theorem collect_missing_go (fs : List String) (sp : String) (hs acc : List String) :
    hs.foldl
      (fun missing path =>
        let path := sp ++ "/" ++ path
        if !fs.contains path then missing ++ [path] else missing)
      acc =
    acc ++ (hs.map (fun p => sp ++ "/" ++ p)).filter (fun p => !fs.contains p) := by
  induction hs generalizing acc with
  | nil => simp
  | cons h t ih =>
    rw [List.foldl_cons, ih, List.map_cons, List.filter_cons]
    cases hc : fs.contains (sp ++ "/" ++ h) with
    | false =>
      have hm : ¬(sp ++ "/" ++ h ∈ fs) := by simpa using hc
      simp [hc, hm, List.append_assoc]
    | true =>
      have hm : sp ++ "/" ++ h ∈ fs := by simpa using hc
      simp [hc, hm]

theorem collect_missing_eq_filter (fs : List String) (sp : String) (hs : List String) :
    collect_missing fs sp hs =
      (hs.map (fun p => sp ++ "/" ++ p)).filter (fun p => !fs.contains p) := by
  unfold collect_missing
  simpa using collect_missing_go fs sp hs []

/-- C4: when generation is not cache-skipped, every declared header is
resolved against the staged root; the headers that do not exist are exactly
the resolved paths absent from the filesystem, collected in declaration order,
and a non-empty collection aborts generation reporting that list (so no
bindings artifact is produced). Concretely, for the header list
`["codec/decode.h", "util/common.h"]` with only `util/common.h` absent under
the staged root, exactly the one path `root ++ "/util/common.h"` is
reported. -/
theorem codegen_missing_headers :
    (∀ env fs out_path source_path content bindings_file bindgen_result,
      (rust_lines content).all (fun x => !((rust_trim x).data.isEmpty)) = true →
      skip_codegen_flag env fs (out_path ++ "/" ++ "bindings_ffmpeg.rs") = false →
      collect_missing fs source_path (rust_lines content) ≠ [] →
      codegen_step env fs out_path source_path (some content) bindings_file bindgen_result =
        Except.error (BuildError.missingHeaders
          (collect_missing fs source_path (rust_lines content)))) ∧
    (∀ fs source_path headers,
      collect_missing fs source_path headers =
        (headers.map (fun p => source_path ++ "/" ++ p)).filter
          (fun p => !fs.contains p)) ∧
    codegen_step [] ["root", "root/codec/decode.h"] "out" "root"
        (some "codec/decode.h\nutil/common.h") none (some "GEN") =
      Except.error (BuildError.missingHeaders ["root/util/common.h"]) := by
  refine ⟨?_, collect_missing_eq_filter, rfl⟩
  intro env fs out_path source_path content bindings_file bindgen_result hall hskip hmiss
  have hm : (collect_missing fs source_path (rust_lines content)).isEmpty = false := by
    cases hmm : collect_missing fs source_path (rust_lines content) with
    | nil => exact absurd hmm hmiss
    | cons a l => rfl
  simp [codegen_step, hall, hskip, hm]

/-- C4 witness: a single declared header absent from an empty staged tree is
reported as the one missing path. -/
theorem codegen_missing_headers_witness :
    codegen_step [] ["r"] "o" "r" (some "a.h") none none =
      Except.error (BuildError.missingHeaders ["r/a.h"]) :=
  (codegen_missing_headers.1 [] ["r"] "o" "r" "a.h" none none (by decide) (by decide)
    (by decide)).trans rfl

/-! ## Filesystem growth and phase anatomy -/

/-- The filesystem only ever grows during a run: every path existing in `a`
still exists in `b`. -/
def fs_le (a b : List String) : Prop :=
  ∀ x, a.contains x = true → b.contains x = true

theorem fs_le_refl (a : List String) : fs_le a a :=
  fun _ h => h

theorem fs_le_cons (a : List String) (x : String) : fs_le a (x :: a) := by
  intro y hy
  have hm : y ∈ a := by simpa using hy
  simpa using Or.inr hm

theorem fs_le_append (xs a : List String) : fs_le a (xs ++ a) := by
  intro y hy
  have hm : y ∈ a := by simpa using hy
  simpa using Or.inr hm

theorem fs_le_trans {a b c : List String} (h1 : fs_le a b) (h2 : fs_le b c) : fs_le a c :=
  fun x hx => h2 x (h1 x hx)

theorem already_built_mono {a b : List String} (sp : String) (hle : fs_le a b)
    (h : already_built a sp = true) : already_built b sp = true := by
  simp only [already_built, List.all_eq_true] at h ⊢
  intro lib hlib
  exact hle _ (h lib hlib)

theorem already_built_head (fs : List String) (sp : String)
    (h : already_built fs sp = true) :
    fs.contains (sp ++ "/" ++ "libavcodec/libavcodec.a") = true := by
  simp only [already_built, STATIC_LIBS, List.all_cons, Bool.and_eq_true] at h
  exact h.1

theorem already_built_after_make (sp : String) (fs : List String) :
    already_built (artifact_paths sp ++ fs) sp = true := by
  simp [already_built, artifact_paths, STATIC_LIBS]

theorem stage_step_ok (sb cp : Bool) (fs : List String) (sp : String)
    (st : Bool × List String) (h : stage_step sb cp fs sp = Except.ok st) :
    fs_le fs st.2 ∧ st.2.contains sp = true ∧
    st.1 = (!fs.contains sp || !sb) ∧
    (st.1 = true → cp = true ∧ st.2 = sp :: fs) ∧
    (st.1 = false → st.2 = fs ∧ fs.contains sp = true ∧ sb = true) := by
  unfold stage_step at h
  cases hc : fs.contains sp with
  | false =>
    rw [hc] at h
    simp only [Bool.not_false, Bool.true_or, if_true] at h
    cases hcp : cp with
    | false => rw [hcp] at h; cases h
    | true =>
      rw [hcp] at h
      simp only [if_true] at h
      injection h with h2
      subst h2
      refine ⟨fs_le_cons fs sp, by simp, by simp [hc], ?_, ?_⟩
      · intro _; exact ⟨rfl, rfl⟩
      · intro hff; cases hff
  | true =>
    rw [hc] at h
    simp only [Bool.not_true, Bool.false_or] at h
    cases hsb : sb with
    | false =>
      rw [hsb] at h
      simp only [Bool.not_false, if_true] at h
      cases hcp : cp with
      | false => rw [hcp] at h; cases h
      | true =>
        rw [hcp] at h
        simp only [if_true] at h
        injection h with h2
        subst h2
        refine ⟨fs_le_cons fs sp, by simp, by simp [hc], ?_, ?_⟩
        · intro _; exact ⟨rfl, rfl⟩
        · intro hff; cases hff
    | true =>
      rw [hsb] at h
      simp only [Bool.not_true, Bool.or_self, if_false] at h
      injection h with h2
      subst h2
      refine ⟨fs_le_refl fs, hc, by simp [hc], ?_, ?_⟩
      · intro hff; cases hff
      · intro _; exact ⟨rfl, rfl, rfl⟩

theorem build_code_phase_ok (w : World) (sb : Bool) (sp : String) (fs1 : List String)
    (ph : List String × List (List String) × Bool × List String)
    (h : build_code_phase w sb sp fs1 = Except.ok ph) :
    fs_le fs1 ph.2.2.2 ∧
    (sb = true → ph = ([], [], false, fs1)) ∧
    (sb = false →
      x264_directives w.env = Except.ok ph.1 ∧
      (configure_step w.configure (configure_flags w.env)).2 = Except.ok () ∧
      ph.2.1 = (configure_step w.configure (configure_flags w.env)).1 ∧
      ph.2.2.1 = true ∧ w.make_result.success = true ∧
      ph.2.2.2 = artifact_paths sp ++ fs1 ∧
      already_built ph.2.2.2 sp = true) := by
  cases sb with
  | true =>
    simp [build_code_phase] at h
    rw [← h]
    refine ⟨fs_le_refl fs1, ?_, ?_⟩
    · intro _; rfl
    · intro hff; cases hff
  | false =>
    unfold build_code_phase at h
    simp only [if_true, eq_self_iff_true] at h
    cases hx : x264_directives w.env with
    | error e => rw [hx] at h; cases h
    | ok xdirs =>
      rw [hx] at h
      cases hcres : (configure_step w.configure (configure_flags w.env)).2 with
      | error out => rw [hcres] at h; cases h
      | ok u =>
        rw [hcres] at h
        cases hmk : w.make_result.success with
        | false => rw [hmk] at h; simp at h
        | true =>
          rw [hmk] at h
          simp only [if_true] at h
          injection h with h2
          subst h2
          refine ⟨fs_le_append _ _, ?_, ?_⟩
          · intro hff; cases hff
          · intro _
            exact ⟨rfl, rfl, rfl, rfl, rfl, rfl, already_built_after_make sp fs1⟩

theorem skip_codegen_flag_contains (env : EnvMap) (fs : List String) (gp : String)
    (h : skip_codegen_flag env fs gp = true) : fs.contains gp = true := by
  unfold skip_codegen_flag at h
  cases hff : has_env_var_with_value env "FFDEV2" "2" <;> rw [hff] at h <;>
    simp at h <;> simpa using h

theorem codegen_step_ok (env : EnvMap) (fs : List String) (out_path source_path : String)
    (hf bf bg : Option String) (cg : Bool × Option String × List String)
    (h : codegen_step env fs out_path source_path hf bf bg = Except.ok cg) :
    fs_le fs cg.2.2 ∧
    cg.2.2.contains (out_path ++ "/" ++ "bindings_ffmpeg.rs") = true ∧
    (∃ content, hf = some content ∧
      (rust_lines content).all (fun x => !((rust_trim x).data.isEmpty)) = true) ∧
    (cg.1 = true → cg.2.1 = bg ∧
      cg.2.2 = (out_path ++ "/" ++ "bindings_ffmpeg.rs") :: fs) ∧
    (cg.1 = false → cg.2.1 = bf ∧ cg.2.2 = fs ∧
      skip_codegen_flag env fs (out_path ++ "/" ++ "bindings_ffmpeg.rs") = true) := by
  cases hf with
  | none => cases h
  | some content =>
    simp only [codegen_step] at h
    split at h
    next hblank0 => cases h
    next hblank =>
      have hall : (rust_lines content).all (fun x => !((rust_trim x).data.isEmpty)) = true := by
        simpa using hblank
      split at h
      next hrun =>
        split at h
        next hmiss0 => cases h
        next hmiss =>
          cases bg with
          | none => cases h
          | some generated =>
            injection h with h2
            subst h2
            refine ⟨fs_le_cons fs _, by simp, ⟨content, rfl, hall⟩, ?_, ?_⟩
            · intro _; exact ⟨rfl, rfl⟩
            · intro hff; cases hff
      next hskip =>
        injection h with h2
        subst h2
        have hsk : skip_codegen_flag env fs (out_path ++ "/" ++ "bindings_ffmpeg.rs") = true := by
          simpa using hskip
        refine ⟨fs_le_refl fs,
          skip_codegen_flag_contains env fs (out_path ++ "/" ++ "bindings_ffmpeg.rs") hsk,
          ⟨content, rfl, hall⟩, ?_, ?_⟩
        · intro hff; cases hff
        · intro _; exact ⟨rfl, rfl, hsk⟩

theorem build_ok_destruct (w : World) (t : Trace) (h : build w = Except.ok t) :
    ∃ out_path staged phase cg,
      envVar w.env "OUT_DIR" = some out_path ∧
      stage_step (skip_build_flag w.env w.fs (out_path ++ "/ffmpeg-src")) w.cp_success w.fs
        (out_path ++ "/ffmpeg-src") = Except.ok staged ∧
      build_code_phase w (skip_build_flag w.env w.fs (out_path ++ "/ffmpeg-src"))
        (out_path ++ "/ffmpeg-src") staged.2 = Except.ok phase ∧
      codegen_step w.env phase.2.2.2 out_path (out_path ++ "/ffmpeg-src")
        w.headers_file w.bindings_file w.bindgen_result = Except.ok cg ∧
      w.cc_success = true ∧
      t = { copied := staged.1
            configure_runs := phase.2.1
            make_ran := phase.2.2.1
            directives := phase.1 ++ link_directives (out_path ++ "/ffmpeg-src") ++
              ["rerun-if-changed=headers"]
            codegen_ran := cg.1
            bindings := cg.2.1
            shim_ran := true
            fs_after := cg.2.2 } := by
  unfold build at h
  cases henv : envVar w.env "OUT_DIR" with
  | none => rw [henv] at h; cases h
  | some out_path =>
    rw [henv] at h
    dsimp only at h
    refine ⟨out_path, ?_⟩
    cases hst : stage_step (skip_build_flag w.env w.fs (out_path ++ "/ffmpeg-src")) w.cp_success
        w.fs (out_path ++ "/ffmpeg-src") with
    | error e => rw [hst] at h; cases h
    | ok staged =>
      rw [hst] at h
      dsimp only at h
      refine ⟨staged, ?_⟩
      cases hph : build_code_phase w (skip_build_flag w.env w.fs (out_path ++ "/ffmpeg-src"))
          (out_path ++ "/ffmpeg-src") staged.2 with
      | error e => rw [hph] at h; cases h
      | ok phase =>
        rw [hph] at h
        dsimp only at h
        refine ⟨phase, ?_⟩
        cases hcg : codegen_step w.env phase.2.2.2 out_path (out_path ++ "/ffmpeg-src")
            w.headers_file w.bindings_file w.bindgen_result with
        | error e => rw [hcg] at h; cases h
        | ok cg =>
          rw [hcg] at h
          dsimp only at h
          refine ⟨cg, rfl, rfl, rfl, rfl, ?_⟩
          cases hcc : w.cc_success with
          | false => rw [hcc] at h; cases h
          | true =>
            rw [hcc] at h
            simp only [if_true] at h
            injection h with h2
            exact ⟨rfl, h2.symm⟩

theorem build_ok_intro (w : World) (out_path : String)
    (staged : Bool × List String)
    (phase : List String × List (List String) × Bool × List String)
    (cg : Bool × Option String × List String)
    (henv : envVar w.env "OUT_DIR" = some out_path)
    (hst : stage_step (skip_build_flag w.env w.fs (out_path ++ "/ffmpeg-src")) w.cp_success w.fs
      (out_path ++ "/ffmpeg-src") = Except.ok staged)
    (hph : build_code_phase w (skip_build_flag w.env w.fs (out_path ++ "/ffmpeg-src"))
      (out_path ++ "/ffmpeg-src") staged.2 = Except.ok phase)
    (hcg : codegen_step w.env phase.2.2.2 out_path (out_path ++ "/ffmpeg-src")
      w.headers_file w.bindings_file w.bindgen_result = Except.ok cg)
    (hcc : w.cc_success = true) :
    build w = Except.ok
      { copied := staged.1
        configure_runs := phase.2.1
        make_ran := phase.2.2.1
        directives := phase.1 ++ link_directives (out_path ++ "/ffmpeg-src") ++
          ["rerun-if-changed=headers"]
        codegen_ran := cg.1
        bindings := cg.2.1
        shim_ran := true
        fs_after := cg.2.2 } := by
  unfold build
  rw [henv]
  dsimp only
  rw [hst]
  dsimp only
  rw [hph]
  dsimp only
  rw [hcg]
  dsimp only
  rw [hcc]
  simp

theorem stage_step_skip (cp : Bool) (fs : List String) (sp : String)
    (hc : fs.contains sp = true) :
    stage_step true cp fs sp = Except.ok (false, fs) := by
  unfold stage_step
  rw [hc]
  simp

theorem stage_step_run (fs : List String) (sp : String) :
    stage_step false true fs sp = Except.ok (true, sp :: fs) := by
  unfold stage_step
  simp

theorem build_code_phase_skip (w : World) (sp : String) (fs1 : List String) :
    build_code_phase w true sp fs1 = Except.ok ([], [], false, fs1) := by
  unfold build_code_phase
  simp

theorem build_code_phase_run (w : World) (sp : String) (fs1 : List String)
    (xdirs : List String)
    (hx : x264_directives w.env = Except.ok xdirs)
    (hc : (configure_step w.configure (configure_flags w.env)).2 = Except.ok ())
    (hmk : w.make_result.success = true) :
    build_code_phase w false sp fs1 =
      Except.ok (xdirs, (configure_step w.configure (configure_flags w.env)).1, true,
        artifact_paths sp ++ fs1) := by
  unfold build_code_phase
  rw [if_pos rfl, hx]
  dsimp only
  rw [hc, hmk]
  simp

theorem x264_directives_none (env : EnvMap)
    (hx : (envVar env "CARGO_FEATURE_X264").isSome = false) :
    x264_directives env = Except.ok [] := by
  unfold x264_directives
  rw [hx]
  simp

theorem codegen_step_skip (env : EnvMap) (fs : List String) (out_path source_path : String)
    (content : String) (bf bg : Option String)
    (hall : (rust_lines content).all (fun x => !((rust_trim x).data.isEmpty)) = true)
    (hskip : skip_codegen_flag env fs (out_path ++ "/" ++ "bindings_ffmpeg.rs") = true) :
    codegen_step env fs out_path source_path (some content) bf bg =
      Except.ok (false, bf, fs) := by
  simp only [codegen_step]
  rw [hall, hskip]
  simp

/-! ## A concrete fully-cached world used by several witnesses -/

/-- A world in which everything is already cached: all artifacts and the
bindings artifact exist, the profile is unset (hence not release), and no
override is set, so a run skips staging, configure, make and codegen. -/
def demo_world : World :=
  { env := [("OUT_DIR", "o")]
    fs := "o/ffmpeg-src" :: "o/bindings_ffmpeg.rs" :: artifact_paths "o/ffmpeg-src"
    cp_success := false
    configure := fun _ => ⟨false, "", ""⟩
    make_result := ⟨false, "", ""⟩
    headers_file := some "h.h"
    bindings_file := some "B"
    bindgen_result := none
    cc_success := true }

/-- The trace `demo_world` produces. -/
def demo_trace : Trace :=
  { copied := false
    configure_runs := []
    make_ran := false
    directives := link_directives "o/ffmpeg-src" ++ ["rerun-if-changed=headers"]
    codegen_ran := false
    bindings := some "B"
    shim_ran := true
    fs_after := "o/ffmpeg-src" :: "o/bindings_ffmpeg.rs" :: artifact_paths "o/ffmpeg-src" }

theorem demo_build_ok : build demo_world = Except.ok demo_trace := rfl

/-! ## Claim theorems about the whole pipeline -/

/-- C1: the build phase (staging, configuration, compilation) is skipped on a
successful run exactly when every expected artifact exists under the staged
root, the profile is not release, and the force-rebuild override is unset; and
even then link emission, the binding-generation phase and the shim compile
still run (the staged-root/artifact coherence of the real filesystem is the
`hroot` hypothesis). -/
theorem build_skip_iff (w : World) (t : Trace) (out_path : String)
    (henv : envVar w.env "OUT_DIR" = some out_path)
    (hroot : already_built w.fs (out_path ++ "/ffmpeg-src") = true →
      w.fs.contains (out_path ++ "/ffmpeg-src") = true)
    (h : build w = Except.ok t) :
    ((t.copied = false ∧ t.configure_runs = [] ∧ t.make_ran = false) ↔
      (already_built w.fs (out_path ++ "/ffmpeg-src") = true ∧
        is_release_mode w.env = false ∧
        has_env_var_with_value w.env "FFDEV1" "1" = false)) ∧
    (skip_build_flag w.env w.fs (out_path ++ "/ffmpeg-src") = true →
      t.directives = link_directives (out_path ++ "/ffmpeg-src") ++
        ["rerun-if-changed=headers"] ∧
      t.shim_ran = true ∧
      t.bindings = (if t.codegen_ran then w.bindgen_result else w.bindings_file)) := by
  obtain ⟨op, staged, phase, cg, henv2, hst, hph, hcg, hcc, ht⟩ := build_ok_destruct w t h
  rw [henv] at henv2
  have hop : out_path = op := Option.some.inj henv2
  subst hop
  subst ht
  obtain ⟨hle1, hcont1, hcopied, himp1, himp0⟩ := stage_step_ok _ _ _ _ _ hst
  obtain ⟨hle2, hphT, hphF⟩ := build_code_phase_ok _ _ _ _ _ hph
  obtain ⟨hle3, hgen, ⟨content, hcontent, hall⟩, hcgT, hcgF⟩ := codegen_step_ok _ _ _ _ _ _ _ _ hcg
  constructor
  · constructor
    · rintro ⟨hcop, hruns, hmk⟩
      have hcop' : staged.1 = false := hcop
      have hor : (!w.fs.contains (out_path ++ "/ffmpeg-src") ||
          !skip_build_flag w.env w.fs (out_path ++ "/ffmpeg-src")) = false := by
        rw [← hcopied]; exact hcop'
      have hsb : skip_build_flag w.env w.fs (out_path ++ "/ffmpeg-src") = true := by
        revert hor
        cases skip_build_flag w.env w.fs (out_path ++ "/ffmpeg-src") <;> simp
      have hdec := (skip_build_flag_eq w.env w.fs (out_path ++ "/ffmpeg-src")).symm.trans hsb
      simp only [Bool.and_eq_true, Bool.not_eq_true'] at hdec
      exact ⟨hdec.1.1, hdec.1.2, hdec.2⟩
    · rintro ⟨hab, hrel, hff⟩
      have hsb : skip_build_flag w.env w.fs (out_path ++ "/ffmpeg-src") = true := by
        rw [skip_build_flag_eq, hab, hrel, hff]; rfl
      have hcont : w.fs.contains (out_path ++ "/ffmpeg-src") = true := hroot hab
      have hstaged1 : staged.1 = false := by rw [hcopied, hcont, hsb]; rfl
      have hphase := hphT hsb
      refine ⟨hstaged1, ?_, ?_⟩
      · show phase.2.1 = []
        rw [hphase]
      · show phase.2.2.1 = false
        rw [hphase]
  · intro hsb
    have hphase := hphT hsb
    refine ⟨?_, rfl, ?_⟩
    · show phase.1 ++ link_directives (out_path ++ "/ffmpeg-src") ++
        ["rerun-if-changed=headers"] = link_directives (out_path ++ "/ffmpeg-src") ++
        ["rerun-if-changed=headers"]
      rw [hphase]
      simp
    · show cg.2.1 = (if cg.1 then w.bindgen_result else w.bindings_file)
      cases hc1 : cg.1 with
      | true => simpa [hc1] using (hcgT hc1).1
      | false => simpa [hc1] using (hcgF hc1).1

/-- C1 witness: the fully-cached world skips staging, configure and make. -/
theorem build_skip_iff_witness :
    demo_trace.copied = false ∧ demo_trace.configure_runs = [] ∧
      demo_trace.make_ran = false :=
  (build_skip_iff demo_world demo_trace "o" rfl (fun _ => by decide) demo_build_ok).1.mpr
    ⟨by decide, by decide, by decide⟩

/-- C5: every successful run emits the LINK-section directives as one
contiguous block, in exactly the declared order — the staged root's
link-search path, then each `SEARCH_PATHS` entry joined to the staged root,
then each `STATIC_LIBS` name as a link-library line — followed by the rerun
line; whatever precedes the block is empty when the build phase was skipped
and is the x264 registration otherwise, so the block itself is independent of
the skip/rebuild decisions and of run history. -/
theorem link_directive_order (w : World) (t : Trace) (out_path : String)
    (henv : envVar w.env "OUT_DIR" = some out_path)
    (h : build w = Except.ok t) :
    ∃ xdirs,
      t.directives = xdirs ++ link_directives (out_path ++ "/ffmpeg-src") ++
        ["rerun-if-changed=headers"] ∧
      (skip_build_flag w.env w.fs (out_path ++ "/ffmpeg-src") = true → xdirs = []) ∧
      (skip_build_flag w.env w.fs (out_path ++ "/ffmpeg-src") = false →
        x264_directives w.env = Except.ok xdirs) ∧
      link_directives (out_path ++ "/ffmpeg-src") =
        ("cargo:rustc-link-search=native=" ++ (out_path ++ "/ffmpeg-src"))
          :: (SEARCH_PATHS.map (fun p =>
              "cargo:rustc-link-search=native=" ++ (out_path ++ "/ffmpeg-src" ++ "/" ++ p))
            ++ STATIC_LIBS.map (fun lib => "cargo:rustc-link-lib=static=" ++ lib.1)) := by
  obtain ⟨op, staged, phase, cg, henv2, hst, hph, hcg, hcc, ht⟩ := build_ok_destruct w t h
  rw [henv] at henv2
  have hop : out_path = op := Option.some.inj henv2
  subst hop
  subst ht
  obtain ⟨hle2, hphT, hphF⟩ := build_code_phase_ok _ _ _ _ _ hph
  refine ⟨phase.1, rfl, ?_, ?_, rfl⟩
  · intro hsb
    rw [hphT hsb]
  · intro hsb
    exact (hphF hsb).1

/-- C5 witness at the fully-cached world. -/
theorem link_directive_order_witness :
    ∃ xdirs,
      demo_trace.directives = xdirs ++ link_directives ("o" ++ "/ffmpeg-src") ++
        ["rerun-if-changed=headers"] ∧
      (skip_build_flag demo_world.env demo_world.fs ("o" ++ "/ffmpeg-src") = true →
        xdirs = []) ∧
      (skip_build_flag demo_world.env demo_world.fs ("o" ++ "/ffmpeg-src") = false →
        x264_directives demo_world.env = Except.ok xdirs) ∧
      link_directives ("o" ++ "/ffmpeg-src") =
        ("cargo:rustc-link-search=native=" ++ ("o" ++ "/ffmpeg-src"))
          :: (SEARCH_PATHS.map (fun p =>
              "cargo:rustc-link-search=native=" ++ ("o" ++ "/ffmpeg-src" ++ "/" ++ p))
            ++ STATIC_LIBS.map (fun lib => "cargo:rustc-link-lib=static=" ++ lib.1)) :=
  link_directive_order demo_world demo_trace "o" rfl demo_build_ok

/-- C10: under the filesystem coherence hypothesis (an existing artifact
implies an existing staged root), a skip decision implies the staged root
exists; consequently on a successful run the staging copy happened exactly
when the build was not skipped, and any staging copy implies the copy
succeeded and the staged root exists afterwards. -/
theorem staging_invariant (w : World) (out_path : String)
    (henv : envVar w.env "OUT_DIR" = some out_path)
    (hroot : w.fs.contains (out_path ++ "/ffmpeg-src" ++ "/" ++ "libavcodec/libavcodec.a") =
        true →
      w.fs.contains (out_path ++ "/ffmpeg-src") = true) :
    (skip_build_flag w.env w.fs (out_path ++ "/ffmpeg-src") = true →
      w.fs.contains (out_path ++ "/ffmpeg-src") = true) ∧
    (∀ t, build w = Except.ok t →
      (t.copied = true ↔
        skip_build_flag w.env w.fs (out_path ++ "/ffmpeg-src") = false) ∧
      (t.copied = true → w.cp_success = true ∧
        t.fs_after.contains (out_path ++ "/ffmpeg-src") = true)) := by
  have hskip_contains : skip_build_flag w.env w.fs (out_path ++ "/ffmpeg-src") = true →
      w.fs.contains (out_path ++ "/ffmpeg-src") = true := by
    intro hsb
    have hdec := (skip_build_flag_eq w.env w.fs (out_path ++ "/ffmpeg-src")).symm.trans hsb
    have hab : already_built w.fs (out_path ++ "/ffmpeg-src") = true := by
      cases hA : already_built w.fs (out_path ++ "/ffmpeg-src") with
      | false => rw [hA] at hdec; simp at hdec
      | true => rfl
    exact hroot (already_built_head w.fs (out_path ++ "/ffmpeg-src") hab)
  refine ⟨hskip_contains, ?_⟩
  intro t h
  obtain ⟨op, staged, phase, cg, henv2, hst, hph, hcg, hcc, ht⟩ := build_ok_destruct w t h
  rw [henv] at henv2
  have hop : out_path = op := Option.some.inj henv2
  subst hop
  subst ht
  obtain ⟨hle1, hcont1, hcopied, himp1, himp0⟩ := stage_step_ok _ _ _ _ _ hst
  obtain ⟨hle2, hphT, hphF⟩ := build_code_phase_ok _ _ _ _ _ hph
  obtain ⟨hle3, hgen, hcontent, hcgT, hcgF⟩ := codegen_step_ok _ _ _ _ _ _ _ _ hcg
  constructor
  · constructor
    · intro hcop
      have hcop' : staged.1 = true := hcop
      cases hsb : skip_build_flag w.env w.fs (out_path ++ "/ffmpeg-src") with
      | false => rfl
      | true =>
        exfalso
        have hc := hskip_contains hsb
        have hfalse : staged.1 = false := by rw [hcopied, hc, hsb]; rfl
        rw [hfalse] at hcop'
        cases hcop'
    · intro hsb
      show staged.1 = true
      rw [hcopied, hsb]
      simp
  · intro hcop
    have hcop' : staged.1 = true := hcop
    obtain ⟨hcp, _⟩ := himp1 hcop'
    exact ⟨hcp, hle3 _ (hle2 _ hcont1)⟩

/-- C10 witness: in the fully-cached world the skip decision holds and the
staged root indeed exists. -/
theorem staging_invariant_witness :
    demo_world.fs.contains ("o" ++ "/ffmpeg-src") = true :=
  (staging_invariant demo_world "o" rfl (by decide)).1 (by decide)

/-- C8 evidence: every successful run's final directive is the literal line
`"rerun-if-changed=headers"`, which lacks the `cargo:` prefix, while every
LINK-section directive carries that prefix — so the rerun-trigger line is not
in the directive format the consuming build system accepts, unlike the
link-search and link-library lines. -/
theorem rerun_directive_format :
    (∀ w t, build w = Except.ok t →
      t.directives.getLast? = some "rerun-if-changed=headers") ∧
    ("cargo:".data.isPrefixOf "rerun-if-changed=headers".data) = false ∧
    (∀ sp, (link_directives sp).all (fun d => "cargo:".data.isPrefixOf d.data) = true) := by
  refine ⟨?_, by decide, fun sp => rfl⟩
  intro w t h
  obtain ⟨op, staged, phase, cg, henv2, hst, hph, hcg, hcc, ht⟩ := build_ok_destruct w t h
  subst ht
  show (phase.1 ++ link_directives (op ++ "/ffmpeg-src") ++
    ["rerun-if-changed=headers"]).getLast? = some "rerun-if-changed=headers"
  exact List.getLast?_concat _

/-- C8 witness at the fully-cached world. -/
theorem rerun_directive_format_witness :
    demo_trace.directives.getLast? = some "rerun-if-changed=headers" :=
  rerun_directive_format.1 demo_world demo_trace demo_build_ok

/-- C6: running the pipeline a second time against the filesystem and bindings
artifact a first successful run left behind, with the same environment
snapshot and no force-regenerate override, succeeds again, skips binding
generation (the artifact exists), leaves the bindings artifact byte-identical,
and emits the identical LINK-section block; moreover when the external-codec
feature is disabled the full directive lists of the two runs coincide. -/
theorem build_idempotent (w : World) (t1 : Trace)
    (h : build w = Except.ok t1)
    (hff2 : has_env_var_with_value w.env "FFDEV2" "2" = false) :
    ∃ t2, build { w with fs := t1.fs_after, bindings_file := t1.bindings } = Except.ok t2 ∧
      t2.codegen_ran = false ∧
      t2.bindings = t1.bindings ∧
      (∀ out_path, envVar w.env "OUT_DIR" = some out_path →
        ∃ pre1 pre2,
          t1.directives = pre1 ++ link_directives (out_path ++ "/ffmpeg-src") ++
            ["rerun-if-changed=headers"] ∧
          t2.directives = pre2 ++ link_directives (out_path ++ "/ffmpeg-src") ++
            ["rerun-if-changed=headers"]) ∧
      ((envVar w.env "CARGO_FEATURE_X264").isSome = false →
        t2.directives = t1.directives) := by
  obtain ⟨op, staged, phase, cg, henv, hst, hph, hcg, hcc, ht⟩ := build_ok_destruct w t1 h
  subst ht
  obtain ⟨hle1, hcont1, hcopied, himp1, himp0⟩ := stage_step_ok _ _ _ _ _ hst
  obtain ⟨hle2, hphT, hphF⟩ := build_code_phase_ok _ _ _ _ _ hph
  obtain ⟨hle3, hgen, ⟨content, hcontent, hall⟩, hcgT, hcgF⟩ := codegen_step_ok _ _ _ _ _ _ _ _ hcg
  have hcsp2 : cg.2.2.contains (op ++ "/ffmpeg-src") = true := hle3 _ (hle2 _ hcont1)
  have hskipflag : ∀ fs2 : List String,
      fs2.contains (op ++ "/" ++ "bindings_ffmpeg.rs") = true →
      skip_codegen_flag w.env fs2 (op ++ "/" ++ "bindings_ffmpeg.rs") = true := by
    intro fs2 hcontg
    unfold skip_codegen_flag
    rw [hff2]
    simpa using hcontg
  cases hsb1 : skip_build_flag w.env w.fs (op ++ "/ffmpeg-src") with
  | true =>
    have hdec := (skip_build_flag_eq w.env w.fs (op ++ "/ffmpeg-src")).symm.trans hsb1
    simp only [Bool.and_eq_true, Bool.not_eq_true'] at hdec
    obtain ⟨⟨hab, hrel⟩, hffd1⟩ := hdec
    have hab2 : already_built cg.2.2 (op ++ "/ffmpeg-src") = true :=
      already_built_mono _ (fs_le_trans (fs_le_trans hle1 hle2) hle3) hab
    have hsb2 : skip_build_flag w.env cg.2.2 (op ++ "/ffmpeg-src") = true := by
      rw [skip_build_flag_eq, hab2, hrel, hffd1]; rfl
    have hst2 : stage_step (skip_build_flag w.env cg.2.2 (op ++ "/ffmpeg-src")) w.cp_success
        cg.2.2 (op ++ "/ffmpeg-src") = Except.ok (false, cg.2.2) := by
      rw [hsb2]; exact stage_step_skip w.cp_success cg.2.2 _ hcsp2
    have hph2 : build_code_phase { w with fs := cg.2.2, bindings_file := cg.2.1 }
        (skip_build_flag w.env cg.2.2 (op ++ "/ffmpeg-src")) (op ++ "/ffmpeg-src")
        cg.2.2 = Except.ok ([], [], false, cg.2.2) := by
      rw [hsb2]; exact build_code_phase_skip _ _ _
    have hcg2 : codegen_step w.env cg.2.2 op (op ++ "/ffmpeg-src") w.headers_file cg.2.1
        w.bindgen_result = Except.ok (false, cg.2.1, cg.2.2) := by
      rw [hcontent]
      exact codegen_step_skip w.env cg.2.2 op _ content cg.2.1 w.bindgen_result hall
        (hskipflag cg.2.2 hgen)
    have ht2 := build_ok_intro { w with fs := cg.2.2, bindings_file := cg.2.1 } op
      (false, cg.2.2) ([], [], false, cg.2.2) (false, cg.2.1, cg.2.2) henv hst2 hph2 hcg2 hcc
    refine ⟨_, ht2, rfl, rfl, ?_, ?_⟩
    · intro out_path henv'
      have hop : op = out_path := Option.some.inj (henv.symm.trans henv')
      subst hop
      exact ⟨phase.1, [], rfl, rfl⟩
    · intro hxnone
      have hp1 : phase.1 = [] := by rw [hphT hsb1]
      show ([] : List String) ++ link_directives (op ++ "/ffmpeg-src") ++
        ["rerun-if-changed=headers"] = phase.1 ++ link_directives (op ++ "/ffmpeg-src") ++
        ["rerun-if-changed=headers"]
      rw [hp1]
  | false =>
    have hstaged1 : staged.1 = true := by
      rw [hcopied, hsb1]; simp
    obtain ⟨hcp, hstfs⟩ := himp1 hstaged1
    obtain ⟨hx264, hconf, hruns, hmk1, hmksucc, hfs2eq, hab2after⟩ := hphF hsb1
    cases hsb2 : skip_build_flag w.env cg.2.2 (op ++ "/ffmpeg-src") with
    | true =>
      have hst2 : stage_step (skip_build_flag w.env cg.2.2 (op ++ "/ffmpeg-src")) w.cp_success
          cg.2.2 (op ++ "/ffmpeg-src") = Except.ok (false, cg.2.2) := by
        rw [hsb2]; exact stage_step_skip w.cp_success cg.2.2 _ hcsp2
      have hph2 : build_code_phase { w with fs := cg.2.2, bindings_file := cg.2.1 }
          (skip_build_flag w.env cg.2.2 (op ++ "/ffmpeg-src")) (op ++ "/ffmpeg-src")
          cg.2.2 = Except.ok ([], [], false, cg.2.2) := by
        rw [hsb2]; exact build_code_phase_skip _ _ _
      have hcg2 : codegen_step w.env cg.2.2 op (op ++ "/ffmpeg-src") w.headers_file cg.2.1
          w.bindgen_result = Except.ok (false, cg.2.1, cg.2.2) := by
        rw [hcontent]
        exact codegen_step_skip w.env cg.2.2 op _ content cg.2.1 w.bindgen_result hall
          (hskipflag cg.2.2 hgen)
      have ht2 := build_ok_intro { w with fs := cg.2.2, bindings_file := cg.2.1 } op
        (false, cg.2.2) ([], [], false, cg.2.2) (false, cg.2.1, cg.2.2) henv hst2 hph2 hcg2 hcc
      refine ⟨_, ht2, rfl, rfl, ?_, ?_⟩
      · intro out_path henv'
        have hop : op = out_path := Option.some.inj (henv.symm.trans henv')
        subst hop
        exact ⟨phase.1, [], rfl, rfl⟩
      · intro hxnone
        have hp1 : phase.1 = [] := by
          have hnone := x264_directives_none w.env hxnone
          rw [hnone] at hx264
          injection hx264 with hh
          exact hh.symm
        show ([] : List String) ++ link_directives (op ++ "/ffmpeg-src") ++
          ["rerun-if-changed=headers"] = phase.1 ++ link_directives (op ++ "/ffmpeg-src") ++
          ["rerun-if-changed=headers"]
        rw [hp1]
    | false =>
      have hst2 : stage_step (skip_build_flag w.env cg.2.2 (op ++ "/ffmpeg-src")) w.cp_success
          cg.2.2 (op ++ "/ffmpeg-src") =
          Except.ok (true, (op ++ "/ffmpeg-src") :: cg.2.2) := by
        rw [hsb2, hcp]; exact stage_step_run cg.2.2 _
      have hph2 : build_code_phase { w with fs := cg.2.2, bindings_file := cg.2.1 }
          (skip_build_flag w.env cg.2.2 (op ++ "/ffmpeg-src")) (op ++ "/ffmpeg-src")
          ((op ++ "/ffmpeg-src") :: cg.2.2) =
          Except.ok (phase.1, (configure_step w.configure (configure_flags w.env)).1, true,
            artifact_paths (op ++ "/ffmpeg-src") ++ ((op ++ "/ffmpeg-src") :: cg.2.2)) := by
        rw [hsb2]
        exact build_code_phase_run _ _ _ phase.1 hx264 hconf hmksucc
      have hcontg2 : (artifact_paths (op ++ "/ffmpeg-src") ++
          ((op ++ "/ffmpeg-src") :: cg.2.2)).contains (op ++ "/" ++ "bindings_ffmpeg.rs") =
          true :=
        fs_le_append (artifact_paths (op ++ "/ffmpeg-src")) _ _
          (fs_le_cons cg.2.2 (op ++ "/ffmpeg-src") _ hgen)
      have hcg2 : codegen_step w.env
          (artifact_paths (op ++ "/ffmpeg-src") ++ ((op ++ "/ffmpeg-src") :: cg.2.2)) op
          (op ++ "/ffmpeg-src") w.headers_file cg.2.1 w.bindgen_result =
          Except.ok (false, cg.2.1,
            artifact_paths (op ++ "/ffmpeg-src") ++ ((op ++ "/ffmpeg-src") :: cg.2.2)) := by
        rw [hcontent]
        exact codegen_step_skip w.env _ op _ content cg.2.1 w.bindgen_result hall
          (hskipflag _ hcontg2)
      have ht2 := build_ok_intro { w with fs := cg.2.2, bindings_file := cg.2.1 } op
        (true, (op ++ "/ffmpeg-src") :: cg.2.2)
        (phase.1, (configure_step w.configure (configure_flags w.env)).1, true,
          artifact_paths (op ++ "/ffmpeg-src") ++ ((op ++ "/ffmpeg-src") :: cg.2.2))
        (false, cg.2.1,
          artifact_paths (op ++ "/ffmpeg-src") ++ ((op ++ "/ffmpeg-src") :: cg.2.2))
        henv hst2 hph2 hcg2 hcc
      refine ⟨_, ht2, rfl, rfl, ?_, ?_⟩
      · intro out_path henv'
        have hop : op = out_path := Option.some.inj (henv.symm.trans henv')
        subst hop
        exact ⟨phase.1, phase.1, rfl, rfl⟩
      · intro hxnone
        rfl

/-- C6 witness at the fully-cached world. -/
theorem build_idempotent_witness :
    ∃ t2, build { demo_world with fs := demo_trace.fs_after, bindings_file := demo_trace.bindings } = Except.ok t2 ∧
      t2.codegen_ran = false ∧
      t2.bindings = demo_trace.bindings ∧
      (∀ out_path, envVar demo_world.env "OUT_DIR" = some out_path →
        ∃ pre1 pre2,
          demo_trace.directives = pre1 ++ link_directives (out_path ++ "/ffmpeg-src") ++
            ["rerun-if-changed=headers"] ∧
          t2.directives = pre2 ++ link_directives (out_path ++ "/ffmpeg-src") ++
            ["rerun-if-changed=headers"]) ∧
      ((envVar demo_world.env "CARGO_FEATURE_X264").isSome = false →
        t2.directives = demo_trace.directives) :=
  build_idempotent demo_world demo_trace demo_build_ok (by decide)

end FfmpegDev
